import Mathlib

/-!
Shallow embedding of `hysteria2/service.go` (sing-quic hysteria2 server):
the per-stream response adapter (`serverConn`), the per-connection session
state machine (`serverSession.ServeHTTP`, `handleStream0`, `closeWithError`)
and service construction (`NewService`), together with theorems settling the
specification claims about them.
-/

namespace Hysteria2

/-! ## Go error model

Go errors are modelled as `Option String`: `none` is the nil error, `some e`
an error value. -/

/-- The Go standard library sentinel `os.ErrClosed` ("file already closed"),
returned by `serverConn.HandshakeFailure` when a response was already
written (service.go:318). -/
def osErrClosed : String := "file already closed"

/-- Modelled from the spec: `baderror.WrapQUIC` lives in an external library;
the spec says transport-specific error values are translated into a stable
error vocabulary. The translation preserves presence/absence of an error
(`WrapQUIC(nil) == nil`); the concrete vocabulary mapping is opaque, so the
error value itself is carried through unchanged. -/
def wrapQUIC : Option String → Option String
  | none => none
  | some e => some e

/-! ## Stream adapter (`serverConn`, service.go:311-354)

The adapter wraps one hijacked stream. Data handed to the underlying
`quic.Stream.Write` is modelled as a list of `StreamItem`s: either a framed
TCP response (`protocol.WriteTCPResponse(ok, message, payload)`) or raw
pass-through bytes. Bytes are `Nat`s. The underlying stream's reply to a
write is supplied as an explicit parameter (a byte count and an optional
error), since the transport is an external collaborator. -/

/-- One unit of data passed to the underlying stream's write. -/
inductive StreamItem where
  /-- A TCP response frame: success flag, error message, inline payload
  (`protocol.WriteTCPResponse`). -/
  | frame (ok : Bool) (message : String) (payload : List Nat)
  /-- Raw bytes passed through without framing. -/
  | raw (data : List Nat)
  deriving DecidableEq, Repr

/-- State of a `serverConn` stream adapter (service.go:311-314): the
`responseWritten` idempotence guard. -/
structure ServerConn where
  responseWritten : Bool
  deriving DecidableEq, Repr

/-- A fresh adapter: Go zero value, `responseWritten == false`. -/
def ServerConn.init : ServerConn := ⟨false⟩

/-- Result of `HandshakeFailure`/`HandshakeSuccess`: the updated adapter
state, the items handed to the underlying stream write during the call, and
the returned Go error. -/
structure SignalResult where
  state : ServerConn
  emitted : List StreamItem
  ret : Option String
  deriving DecidableEq, Repr

/-- `serverConn.HandshakeFailure(err)` (service.go:316-324): if a response
was already written, return `os.ErrClosed`; otherwise mark written, write a
failure frame carrying the error text with no payload, and return the
underlying write's error (`streamErr` is what `c.Stream.Write` returns). -/
def ServerConn.HandshakeFailure (c : ServerConn) (errText : String)
    (streamErr : Option String) : SignalResult :=
  if c.responseWritten then
    ⟨c, [], some osErrClosed⟩
  else
    ⟨⟨true⟩, [.frame false errText []], streamErr⟩

/-- `serverConn.HandshakeSuccess()` (service.go:326-334): if a response was
already written, return nil; otherwise mark written, write a success frame
with no payload, and return the underlying write's error. -/
def ServerConn.HandshakeSuccess (c : ServerConn)
    (streamErr : Option String) : SignalResult :=
  if c.responseWritten then
    ⟨c, [], none⟩
  else
    ⟨⟨true⟩, [.frame true "" []], streamErr⟩

/-- Result of `serverConn.Write`: updated state, items handed to the
underlying stream, the byte count returned, and the returned Go error. -/
structure WriteResult where
  state : ServerConn
  emitted : List StreamItem
  n : Nat
  err : Option String
  deriving DecidableEq, Repr

/-- `serverConn.Write(p)` (service.go:341-354). `streamRes` is the
`(n, err)` pair returned by the underlying `c.Stream.Write` call made during
this invocation. First write (no response yet): mark written, write a
success frame carrying `p` as inline payload; on underlying error return
`(0, WrapQUIC(err))`, else `(len(p), nil)`. Subsequent writes pass `p`
through raw and return the underlying result with the error translated. -/
def ServerConn.Write (c : ServerConn) (p : List Nat)
    (streamRes : Nat × Option String) : WriteResult :=
  if !c.responseWritten then
    match streamRes.2 with
    | some e => ⟨⟨true⟩, [.frame true "" p], 0, wrapQUIC (some e)⟩
    | none => ⟨⟨true⟩, [.frame true "" p], p.length, none⟩
  else
    ⟨c, [.raw p], streamRes.1, wrapQUIC streamRes.2⟩

/-! ### Call sequences over one adapter

For the exactly-once emission property the three operations are drawn from a
common call alphabet and run in sequence, with every underlying stream write
succeeding (returning the full count and a nil error). -/

/-- One call on a stream adapter. -/
inductive ConnCall where
  | hsFailure (errText : String)
  | hsSuccess
  | write (p : List Nat)
  deriving DecidableEq, Repr

/-- Apply one call (with the underlying stream write succeeding), returning
the new adapter state and the items handed to the stream. -/
def applyCall (c : ServerConn) : ConnCall → ServerConn × List StreamItem
  | .hsFailure errText =>
      ((c.HandshakeFailure errText none).state, (c.HandshakeFailure errText none).emitted)
  | .hsSuccess =>
      ((c.HandshakeSuccess none).state, (c.HandshakeSuccess none).emitted)
  | .write p =>
      ((c.Write p (p.length, none)).state, (c.Write p (p.length, none)).emitted)

/-- Run a sequence of calls, concatenating everything handed to the
underlying stream. -/
def runCalls (c : ServerConn) : List ConnCall → List StreamItem
  | [] => []
  | call :: rest => (applyCall c call).2 ++ runCalls (applyCall c call).1 rest

/-- Whether a stream item is a response frame (as opposed to raw bytes). -/
def StreamItem.isFrame : StreamItem → Bool
  | .frame _ _ _ => true
  | .raw _ => false

/-- Number of response frames among the items handed to the stream. -/
def countFrames (items : List StreamItem) : Nat :=
  (items.filter StreamItem.isFrame).length

theorem applyCall_responseWritten (c : ServerConn) (call : ConnCall) :
    (applyCall c call).1.responseWritten = true := by
  cases call <;> cases c with
  | mk rw => cases rw <;>
      simp [applyCall, ServerConn.HandshakeFailure, ServerConn.HandshakeSuccess,
        ServerConn.Write]

theorem applyCall_frames_written (c : ServerConn) (call : ConnCall)
    (h : c.responseWritten = true) : countFrames (applyCall c call).2 = 0 := by
  cases call <;>
    simp [applyCall, ServerConn.HandshakeFailure, ServerConn.HandshakeSuccess,
      ServerConn.Write, h, countFrames, StreamItem.isFrame]

theorem applyCall_frames_fresh (c : ServerConn) (call : ConnCall)
    (h : c.responseWritten = false) : countFrames (applyCall c call).2 = 1 := by
  cases call <;>
    simp [applyCall, ServerConn.HandshakeFailure, ServerConn.HandshakeSuccess,
      ServerConn.Write, h, countFrames, StreamItem.isFrame]

theorem countFrames_append (a b : List StreamItem) :
    countFrames (a ++ b) = countFrames a + countFrames b := by
  simp [countFrames, List.filter_append]

theorem runCalls_frames_written (calls : List ConnCall) :
    ∀ c : ServerConn, c.responseWritten = true → countFrames (runCalls c calls) = 0 := by
  induction calls with
  | nil => intro c _; simp [runCalls, countFrames]
  | cons call rest ih =>
      intro c h
      have h1 := applyCall_frames_written c call h
      have h2 := ih (applyCall c call).1 (applyCall_responseWritten c call)
      rw [runCalls, countFrames_append, h1, h2]

/-! ## Protocol constants

The `hysteria2/internal/protocol` package is part of this repository but not
under the sources provided; only the constants' existence and role are
fixed. The claims compare against them only for equality, never for their
concrete values. -/

/-- Modelled from the spec: the fixed virtual host of the authentication
endpoint (`protocol.URLHost`); the spec fixes only that it is a protocol
constant, not its value. -/
def URLHost : String := "hysteria"

/-- Modelled from the spec: the fixed path of the authentication endpoint
(`protocol.URLPath`); the spec fixes only that it is a protocol constant. -/
def URLPath : String := "/auth"

/-- Modelled from the spec: the protocol's TCP-request frame type tag
(`protocol.FrameTypeTCPRequest`); the claims use it only for equality. -/
def FrameTypeTCPRequest : Nat := 0x401

/-! ## Session state and auth handling (`serverSession`, service.go:190-258)

`AuthRequestFromHeader` / `AuthResponseToHeader` (the header codec) live in
the external protocol package; requests therefore carry the decoded
`AuthRequest` directly and responses are the decoded `AuthResponse`. Rates
are Go `uint64`, modelled as `Nat` (only compared, never overflowed). -/

/-- Decoded auth request: the shared secret and the client's declared
receive rate (`protocol.AuthRequest`; 0 = not declared). -/
structure AuthRequest where
  auth : String
  rx : Nat
  deriving DecidableEq, Repr

/-- Decoded auth response (`protocol.AuthResponse`): UDP-enabled flag,
server receive rate, auto-rate flag. -/
structure AuthResponse where
  udpEnabled : Bool
  rx : Nat
  rxAuto : Bool
  deriving DecidableEq, Repr

/-- An inbound application-level (HTTP/3) request, as seen by `ServeHTTP`:
method, host, URL path, and the auth data decoded from its headers. -/
structure Request where
  method : String
  host : String
  path : String
  authRequest : AuthRequest
  deriving DecidableEq, Repr

/-- The service configuration fields `serverSession.ServeHTTP` reads
(embedded `*Service[U]`, service.go:53-71). The credential registry
`userMap` is a string-keyed association list, mirroring the Go map from
shared secret to identity. -/
structure ServiceCfg (U : Type) where
  sendBPS : Nat
  receiveBPS : Nat
  ignoreClientBandwidth : Bool
  udpDisabled : Bool
  brutalDebug : Bool
  cwnd : Int
  userMap : List (String × U)

/-- Mutable per-connection authentication state of a `serverSession`
(service.go:197-198). Go's zero-valued `authUser U` before authentication
is modelled as `none`. -/
structure SessionState (U : Type) where
  authenticated : Bool
  authUser : Option U
  deriving DecidableEq, Repr

/-- A freshly accepted session (service.go:174-181): unauthenticated, no
bound identity. -/
def SessionState.init {U : Type} : SessionState U := ⟨false, none⟩

/-- The congestion controller installed on the transport connection during
one `ServeHTTP` call: the fixed-rate Brutal sender
(`hyCC.NewBrutalSender(rx, brutalDebug, logger)`) or the adaptive BBR
controller seeded with the configured initial congestion window
(`SetCongestionController(conn, "bbr", cwnd)`). -/
inductive CC where
  | brutal (rate : Nat) (debug : Bool)
  | bbr (cwnd : Int)
  deriving DecidableEq, Repr

/-- Who answered the request: the masquerade handler, or the auth-OK
response written via `AuthResponseToHeader` + `WriteHeader(StatusAuthOK)`. -/
inductive Answer where
  | masquerade
  | authOK (resp : AuthResponse)
  deriving DecidableEq, Repr

/-- Outcome of one `ServeHTTP` call: the answer written, the congestion
controller installed during the call (if any), and the session state after
the call. -/
structure ServeOutcome (U : Type) where
  answer : Answer
  installed : Option CC
  state : SessionState U
  deriving DecidableEq, Repr

/-- `serverSession.ServeHTTP` (service.go:203-258), with the post-auth side
effects (context watcher, datagram loop) outside the model. Mirrors the Go
control flow branch by branch:
1. non-POST / wrong host / wrong path → masquerade handler;
2. already authenticated → immediate auth-OK with recomputed `RxAuto`;
3. unknown secret → masquerade handler;
4. known secret → bind identity, set `authenticated`, then: BBR-disabled
   rejection → masquerade; fixed-rate condition → install Brutal at the
   send-cap-clamped rate; otherwise → install BBR, `rxAuto = true`; then
   write the auth-OK response. -/
def ServeHTTP {U : Type} (svc : ServiceCfg U) (s : SessionState U)
    (r : Request) : ServeOutcome U :=
  if r.method = "POST" ∧ r.host = URLHost ∧ r.path = URLPath then
    if s.authenticated then
      ⟨.authOK ⟨!svc.udpDisabled, svc.receiveBPS,
        decide (svc.receiveBPS = 0) && svc.ignoreClientBandwidth⟩, none, s⟩
    else
      let request := r.authRequest
      match svc.userMap.lookup request.auth with
      | none => ⟨.masquerade, none, s⟩
      | some user =>
        let s' : SessionState U := ⟨true, some user⟩
        if svc.receiveBPS > 0 ∧ svc.ignoreClientBandwidth = true ∧ request.rx = 0 then
          ⟨.masquerade, none, s'⟩
        else if ¬(svc.receiveBPS = 0 ∧ svc.ignoreClientBandwidth = true) ∧ request.rx > 0 then
          let rx := if svc.sendBPS > 0 ∧ request.rx > svc.sendBPS then svc.sendBPS
            else request.rx
          ⟨.authOK ⟨!svc.udpDisabled, svc.receiveBPS, false⟩,
            some (.brutal rx svc.brutalDebug), s'⟩
        else
          ⟨.authOK ⟨!svc.udpDisabled, svc.receiveBPS, true⟩,
            some (.bbr svc.cwnd), s'⟩
  else
    ⟨.masquerade, none, s⟩

/-- `serverSession.handleStream0` (service.go:260-278): the stream-hijack
predicate. Returns whether the stream is claimed and the error returned to
the HTTP/3 layer (always nil). -/
def handleStream0 {U : Type} (s : SessionState U) (frameType : Nat)
    (streamErr : Option String) : Bool × Option String :=
  if !s.authenticated || streamErr.isSome then
    (false, none)
  else if frameType ≠ FrameTypeTCPRequest then
    (false, none)
  else
    (true, none)

/-! ## Connection teardown (`closeWithError`, service.go:293-309) -/

/-- Log severity used by the teardown path. -/
inductive LogLevel where
  | debug
  | error
  deriving DecidableEq, Repr

/-- The close-related session state: whether the one-shot `connDone`
channel has been closed and the recorded `connErr`. -/
structure CloseState where
  connDoneClosed : Bool
  connErr : Option String
  deriving DecidableEq, Repr

/-- A session before any close trigger: `connDone` open, no error. -/
def CloseState.init : CloseState := ⟨false, none⟩

/-- Outcome of one `closeWithError` call: the new state, the log line
emitted (if any) and whether the transport connection was closed. -/
structure CloseOutcome where
  state : CloseState
  logged : Option LogLevel
  transportClosed : Bool
  deriving DecidableEq, Repr

/-- `serverSession.closeWithError(err)` (service.go:293-309), run under the
`connAccess` lock: if `connDone` is already closed, return immediately;
otherwise record the error, close `connDone`, log (debug when
`E.IsClosedOrCanceled(err)`, supplied as the external classifier
`isClosedOrCanceled`, error otherwise) and close the transport
connection. -/
def closeWithError (isClosedOrCanceled : Option String → Bool)
    (s : CloseState) (err : Option String) : CloseOutcome :=
  if s.connDoneClosed then
    ⟨s, none, false⟩
  else
    ⟨⟨true, err⟩, some (if isClosedOrCanceled err then .debug else .error), true⟩

/-- Run a sequence of `closeWithError` calls (the lock serializes concurrent
triggers into some order), returning the final state, the number of log
lines and the number of transport close calls. -/
def runCloses (isClosedOrCanceled : Option String → Bool)
    (s : CloseState) : List (Option String) → CloseState × Nat × Nat
  | [] => (s, 0, 0)
  | err :: rest =>
      let o := closeWithError isClosedOrCanceled s err
      let r := runCloses isClosedOrCanceled o.state rest
      (r.1, (if o.logged.isSome then 1 else 0) + r.2.1,
        (if o.transportClosed then 1 else 0) + r.2.2)

/-! ## Service construction (`NewService`, service.go:73-126)

`quic.Config`, `tls.Config` and `http.Handler` come from external libraries;
only the fields `NewService` touches are modelled. Handlers carry no data
the claims inspect, so a handler is an opaque `String` tag; interface-typed
fields copied verbatim and never read by any claim (context, logger, stream
handler) are left out of the model. `uint64` fields are `Nat`; `int64`
fields (stream count, durations, `CWND`, `UdpMTU`) are `Int`. -/

/-- The `quic.Config` fields `NewService` reads or writes. -/
structure QuicConfig where
  disablePathManager : Bool
  disablePathMTUDiscovery : Bool
  enableDatagrams : Bool
  maxIncomingStreams : Int
  initialStreamReceiveWindow : Nat
  maxStreamReceiveWindow : Nat
  initialConnectionReceiveWindow : Nat
  maxConnectionReceiveWindow : Nat
  maxIdleTimeout : Int
  keepAlivePeriod : Int
  deriving DecidableEq, Repr

/-- The Go zero value `&quic.Config{}` used when `options.QUICConfig` is
nil. -/
def QuicConfig.zero : QuicConfig := ⟨false, false, false, 0, 0, 0, 0, 0, 0, 0⟩

/-- The `tls.Config` field `NewService` touches. -/
structure TLSConfig where
  nextProtos : List String
  deriving DecidableEq, Repr

/-- Modelled from the spec: default stream receive window
(`DefaultStreamReceiveWindow`, defined elsewhere in the repository); the
spec fixes only that a default exists, not its value. -/
def DefaultStreamReceiveWindow : Nat := 8388608

/-- Modelled from the spec: default connection receive window
(`DefaultConnReceiveWindow`, defined elsewhere in the repository). -/
def DefaultConnReceiveWindow : Nat := 20971520

/-- Modelled from the spec: default max idle timeout
(`DefaultMaxIdleTimeout`, defined elsewhere in the repository), in
nanoseconds. -/
def DefaultMaxIdleTimeout : Int := 30000000000

/-- Modelled from the spec: default keep-alive period
(`DefaultKeepAlivePeriod`, defined elsewhere in the repository), in
nanoseconds. -/
def DefaultKeepAlivePeriod : Int := 10000000000

/-- The HTTP/3 ALPN protocol identifier (`http3.NextProtoH3`, external
library constant). -/
def NextProtoH3 : String := "h3"

/-- Opaque tag for the Go standard library's `http.NotFoundHandler()`,
installed when no masquerade handler is configured. -/
def notFoundHandler : String := "http.NotFoundHandler"

/-- The `ServiceOptions` fields the model carries (service.go:30-46).
`quicConfig = none` models a nil `*quic.Config`; `masqueradeHandler = none`
models a nil handler. -/
structure ServiceOptions where
  brutalDebug : Bool
  sendBPS : Nat
  receiveBPS : Nat
  ignoreClientBandwidth : Bool
  salamanderPassword : String
  tlsConfig : TLSConfig
  quicConfig : Option QuicConfig
  udpDisabled : Bool
  udpTimeout : Int
  masqueradeHandler : Option String
  cwnd : Int
  udpMTU : Int
  deriving DecidableEq, Repr

/-- The corresponding `Service` fields after construction
(service.go:53-71), with the masquerade handler always present. -/
structure Service where
  brutalDebug : Bool
  sendBPS : Nat
  receiveBPS : Nat
  ignoreClientBandwidth : Bool
  salamanderPassword : String
  tlsConfig : TLSConfig
  quicConfig : QuicConfig
  udpDisabled : Bool
  udpTimeout : Int
  masqueradeHandler : String
  cwnd : Int
  udpMTU : Int
  deriving DecidableEq, Repr

/-- `NewService` (service.go:73-126), parameterized by `goos`
(`runtime.GOOS`). Starts from the supplied `quic.Config` (or the zero
config), unconditionally sets path-manager/MTU-discovery/datagram flags,
fills a default for each zero-valued tuning field, defaults the masquerade
handler and the TLS protocol list, and copies the remaining options. The Go
version also returns a nil error unconditionally, omitted here. -/
def NewService (goos : String) (options : ServiceOptions) : Service :=
  let qc0 := options.quicConfig.getD QuicConfig.zero
  let qc := { qc0 with
    disablePathManager := true
    disablePathMTUDiscovery :=
      !(goos = "windows" || goos = "linux" || goos = "android" || goos = "darwin")
    enableDatagrams := !options.udpDisabled
    maxIncomingStreams :=
      if qc0.maxIncomingStreams = 0 then (2 : Int) ^ 60 else qc0.maxIncomingStreams
    initialStreamReceiveWindow :=
      if qc0.initialStreamReceiveWindow = 0 then DefaultStreamReceiveWindow
      else qc0.initialStreamReceiveWindow
    maxStreamReceiveWindow :=
      if qc0.maxStreamReceiveWindow = 0 then DefaultStreamReceiveWindow
      else qc0.maxStreamReceiveWindow
    initialConnectionReceiveWindow :=
      if qc0.initialConnectionReceiveWindow = 0 then DefaultConnReceiveWindow
      else qc0.initialConnectionReceiveWindow
    maxConnectionReceiveWindow :=
      if qc0.maxConnectionReceiveWindow = 0 then DefaultConnReceiveWindow
      else qc0.maxConnectionReceiveWindow
    maxIdleTimeout :=
      if qc0.maxIdleTimeout = 0 then DefaultMaxIdleTimeout else qc0.maxIdleTimeout
    keepAlivePeriod :=
      if qc0.keepAlivePeriod = 0 then DefaultKeepAlivePeriod else qc0.keepAlivePeriod }
  { brutalDebug := options.brutalDebug
    sendBPS := options.sendBPS
    receiveBPS := options.receiveBPS
    ignoreClientBandwidth := options.ignoreClientBandwidth
    salamanderPassword := options.salamanderPassword
    tlsConfig :=
      if options.tlsConfig.nextProtos = [] then ⟨[NextProtoH3]⟩ else options.tlsConfig
    quicConfig := qc
    udpDisabled := options.udpDisabled
    udpTimeout := options.udpTimeout
    masqueradeHandler := options.masqueradeHandler.getD notFoundHandler
    cwnd := options.cwnd
    udpMTU := options.udpMTU }

/-! ## Spec-side congestion-controller selection (refinement target for C2)

The table of spec §4.2, written from the spec's words: a pure function of
(`serverMinReceiveRate`, `ignoreClientRate`, `clientDeclaredRate`,
`serverMaxSendRate`), to be compared with what `ServeHTTP` (translated from
the code) installs. -/

/-- Outcome of the spec table: reject to the masquerade handler, fixed-rate
controller at an effective rate, or the adaptive controller. -/
inductive SpecSelection where
  | reject
  | fixedRate (effective : Nat)
  | adaptive
  deriving DecidableEq, Repr

/-- The selection table of spec §4.2, row by row. -/
def specSelect (serverMinReceiveRate : Nat) (ignoreClientRate : Bool)
    (clientDeclaredRate serverMaxSendRate : Nat) : SpecSelection :=
  if serverMinReceiveRate > 0 ∧ ignoreClientRate = true ∧ clientDeclaredRate = 0 then
    .reject
  else if ¬(serverMinReceiveRate = 0 ∧ ignoreClientRate = true) ∧ clientDeclaredRate > 0 then
    .fixedRate (if serverMaxSendRate > 0 then min clientDeclaredRate serverMaxSendRate
      else clientDeclaredRate)
  else
    .adaptive

/-- The code's send-cap clamp (service.go:228-231) equals the spec's
`min`-with-cap formulation. -/
theorem clamp_eq_min (rx sendBPS : Nat) :
    (if sendBPS > 0 ∧ rx > sendBPS then sendBPS else rx)
      = (if sendBPS > 0 then min rx sendBPS else rx) := by
  rcases Nat.lt_or_ge sendBPS rx with h | h <;> split_ifs <;> omega

/-! ## Helper lemmas shared by the claim proofs -/

theorem runCloses_done (isCC : Option String → Bool) (errs : List (Option String)) :
    ∀ s : CloseState, s.connDoneClosed = true →
      runCloses isCC s errs = (s, 0, 0) := by
  induction errs with
  | nil => intro s _; rfl
  | cons e rest ih =>
      intro s h
      simp [runCloses, closeWithError, h, ih s h]

/-! ## Claims about the stream adapter -/

/-- Claim C3, as frozen, is false on the code: after a first
`HandshakeSuccess` a second `HandshakeSuccess` returns a nil error
(service.go:327-328), not the "already closed" error the claim requires of
both signal methods (only `HandshakeFailure` returns `os.ErrClosed`). The
frame is still emitted exactly once. -/
theorem C3_counterexample :
    countFrames (runCalls ServerConn.init [ConnCall.hsSuccess, ConnCall.hsSuccess]) = 1
    ∧ (ServerConn.HandshakeSuccess ⟨true⟩ none).ret = none
    ∧ ¬((ServerConn.HandshakeSuccess ⟨true⟩ none).ret = some osErrClosed) := by
  refine ⟨by decide, rfl, by decide⟩

/-- Claim C3 (amended): over any sequence of calls drawn from
{HandshakeSuccess, HandshakeFailure, Write} the response frame is emitted
exactly once, by the first call; once a response has been written, a later
`HandshakeFailure` fails with the "already closed" error, a later
`HandshakeSuccess` returns a nil error, and neither emits another frame. -/
theorem C3_frame_emitted_once (c : ConnCall) (calls : List ConnCall) :
    countFrames (runCalls ServerConn.init (c :: calls)) = 1
    ∧ countFrames (applyCall ServerConn.init c).2 = 1
    ∧ (applyCall ServerConn.init c).1.responseWritten = true
    ∧ (∀ msg e, (ServerConn.HandshakeFailure ⟨true⟩ msg e).ret = some osErrClosed
        ∧ (ServerConn.HandshakeFailure ⟨true⟩ msg e).emitted = [])
    ∧ (∀ e, (ServerConn.HandshakeSuccess ⟨true⟩ e).ret = none
        ∧ (ServerConn.HandshakeSuccess ⟨true⟩ e).emitted = []) := by
  have hfresh : (ServerConn.init).responseWritten = false := rfl
  have h1 := applyCall_frames_fresh ServerConn.init c hfresh
  have h2 := applyCall_responseWritten ServerConn.init c
  refine ⟨?_, h1, h2, ?_, ?_⟩
  · rw [runCalls, countFrames_append, h1,
      runCalls_frames_written calls (applyCall ServerConn.init c).1 h2]
  · intro msg e
    exact ⟨rfl, rfl⟩
  · intro e
    exact ⟨rfl, rfl⟩

/-- Claim C6: a first `Write(p)` (no response written yet) emits a success
frame carrying `p` as inline payload and, when the underlying write
succeeds, returns `len(p)` with a nil error regardless of the underlying
byte count; every subsequent `Write` passes its bytes through raw and
returns the underlying result with the error translated. -/
theorem C6_implicit_success_write (p q : List Nat) (k : Nat)
    (res : Nat × Option String) :
    (ServerConn.Write ServerConn.init p (k, none)).emitted = [.frame true "" p]
    ∧ (ServerConn.Write ServerConn.init p (k, none)).n = p.length
    ∧ (ServerConn.Write ServerConn.init p (k, none)).err = none
    ∧ (ServerConn.Write ⟨true⟩ q res).emitted = [.raw q]
    ∧ (ServerConn.Write ⟨true⟩ q res).n = res.1
    ∧ (ServerConn.Write ⟨true⟩ q res).err = wrapQUIC res.2 := by
  refine ⟨rfl, rfl, rfl, ?_, ?_, ?_⟩ <;> simp [ServerConn.Write]

/-- Claim C9: each of `HandshakeFailure`, `HandshakeSuccess` and a first
`Write` sets `responseWritten` before the underlying stream write, so even
when that write fails the adapter thereafter behaves as closed: a later
`HandshakeFailure` returns the already-closed error, a later
`HandshakeSuccess` returns nil, and later `Write`s pass through unframed —
the response emission is never retried. -/
theorem C9_flag_set_before_stream_write (msg : String) (p q : List Nat)
    (e : String) (res : Nat × Option String) :
    (ServerConn.HandshakeFailure ServerConn.init msg (some e)).state.responseWritten = true
    ∧ (ServerConn.HandshakeSuccess ServerConn.init (some e)).state.responseWritten = true
    ∧ (ServerConn.Write ServerConn.init p (0, some e)).state.responseWritten = true
    ∧ (∀ m e2, (ServerConn.HandshakeFailure ⟨true⟩ m e2).ret = some osErrClosed
        ∧ (ServerConn.HandshakeFailure ⟨true⟩ m e2).emitted = [])
    ∧ (∀ e2, (ServerConn.HandshakeSuccess ⟨true⟩ e2).ret = none
        ∧ (ServerConn.HandshakeSuccess ⟨true⟩ e2).emitted = [])
    ∧ (ServerConn.Write ⟨true⟩ q res).emitted = [.raw q] := by
  refine ⟨rfl, rfl, rfl, fun m e2 => ⟨rfl, rfl⟩, fun e2 => ⟨rfl, rfl⟩, ?_⟩
  simp [ServerConn.Write]

/-- Claim C10: when the underlying stream write of the framed
implicit-success response fails, `Write` returns a byte count of exactly 0
together with the translated error, regardless of the underlying count,
even though the frame carried `p` as payload. -/
theorem C10_failed_first_write_returns_zero (p : List Nat) (k : Nat) (e : String) :
    (ServerConn.Write ServerConn.init p (k, some e)).n = 0
    ∧ (ServerConn.Write ServerConn.init p (k, some e)).err = wrapQUIC (some e)
    ∧ (ServerConn.Write ServerConn.init p (k, some e)).emitted = [.frame true "" p] := by
  exact ⟨rfl, rfl, rfl⟩

/-! ## Claims about the session -/

/-- Claim C4: the hijack predicate claims a stream iff the session is
authenticated, the accompanying transport error is nil, and the frame type
is the protocol's TCP-request type; it never returns an error, and no
stream is claimed while unauthenticated. -/
theorem C4_hijack_iff {U : Type} (s : SessionState U) (ft : Nat) (e : Option String) :
    ((handleStream0 s ft e).1 = true
      ↔ (s.authenticated = true ∧ e = none ∧ ft = FrameTypeTCPRequest))
    ∧ (handleStream0 s ft e).2 = none
    ∧ (s.authenticated = false → (handleStream0 s ft e).1 = false) := by
  unfold handleStream0
  rcases s with ⟨auth, user⟩
  cases auth <;> cases e <;>
    by_cases hft : ft = FrameTypeTCPRequest <;>
      simp [hft]

/-- Claim C7: only the first `closeWithError` call records the error, logs
and closes the transport; any sequence of close triggers beginning with
error `e` yields final state `(done, e)`, exactly one log line and exactly
one transport close, and a call on an already-done session returns with the
state unchanged, no log and no close. -/
theorem C7_teardown_exactly_once (isCC : Option String → Bool)
    (e : Option String) (errs : List (Option String)) :
    (runCloses isCC CloseState.init (e :: errs)).1 = ⟨true, e⟩
    ∧ (runCloses isCC CloseState.init (e :: errs)).2.1 = 1
    ∧ (runCloses isCC CloseState.init (e :: errs)).2.2 = 1
    ∧ (∀ s e2, s.connDoneClosed = true →
        closeWithError isCC s e2 = ⟨s, none, false⟩) := by
  have hrest := runCloses_done isCC errs ⟨true, e⟩ rfl
  refine ⟨?_, ?_, ?_, ?_⟩
  · simp [runCloses, closeWithError, CloseState.init, hrest]
  · simp [runCloses, closeWithError, CloseState.init, hrest]
  · simp [runCloses, closeWithError, CloseState.init, hrest]
  · intro s e2 h
    simp [closeWithError, h]

/-! ## Helper lemmas: evaluating `ServeHTTP` -/

theorem ServeHTTP_auth_request {U : Type} (svc : ServiceCfg U) (r : Request) (u : U)
    (hm : r.method = "POST") (hh : r.host = URLHost) (hp : r.path = URLPath)
    (hu : svc.userMap.lookup r.authRequest.auth = some u) :
    ServeHTTP svc SessionState.init r =
      if svc.receiveBPS > 0 ∧ svc.ignoreClientBandwidth = true ∧ r.authRequest.rx = 0 then
        ⟨.masquerade, none, ⟨true, some u⟩⟩
      else if ¬(svc.receiveBPS = 0 ∧ svc.ignoreClientBandwidth = true)
          ∧ r.authRequest.rx > 0 then
        ⟨.authOK ⟨!svc.udpDisabled, svc.receiveBPS, false⟩,
          some (.brutal
            (if svc.sendBPS > 0 ∧ r.authRequest.rx > svc.sendBPS then svc.sendBPS
              else r.authRequest.rx) svc.brutalDebug),
          ⟨true, some u⟩⟩
      else
        ⟨.authOK ⟨!svc.udpDisabled, svc.receiveBPS, true⟩, some (.bbr svc.cwnd),
          ⟨true, some u⟩⟩ := by
  simp [ServeHTTP, SessionState.init, hm, hh, hp, hu]

theorem ServeHTTP_already_authenticated {U : Type} (svc : ServiceCfg U)
    (s : SessionState U) (r : Request) (hs : s.authenticated = true)
    (hm : r.method = "POST") (hh : r.host = URLHost) (hp : r.path = URLPath) :
    ServeHTTP svc s r =
      ⟨.authOK ⟨!svc.udpDisabled, svc.receiveBPS,
        decide (svc.receiveBPS = 0) && svc.ignoreClientBandwidth⟩, none, s⟩ := by
  simp [ServeHTTP, hm, hh, hp, hs]

theorem authOK_from_init {U : Type} (svc : ServiceCfg U) (r : Request)
    (resp : AuthResponse)
    (h : (ServeHTTP svc SessionState.init r).answer = .authOK resp) :
    (ServeHTTP svc SessionState.init r).state.authenticated = true
    ∧ resp.udpEnabled = !svc.udpDisabled ∧ resp.rx = svc.receiveBPS := by
  obtain ⟨ue, rxv, ra⟩ := resp
  by_cases hc : (r.method = "POST" ∧ r.host = URLHost ∧ r.path = URLPath)
  · cases hlkp : svc.userMap.lookup r.authRequest.auth with
    | none =>
        simp [ServeHTTP, SessionState.init, hc, hlkp] at h
    | some u =>
        rw [ServeHTTP_auth_request svc r u hc.1 hc.2.1 hc.2.2 hlkp] at h ⊢
        by_cases hA : svc.receiveBPS > 0 ∧ svc.ignoreClientBandwidth = true
            ∧ r.authRequest.rx = 0
        · rw [if_pos hA] at h
          simp at h
        · rw [if_neg hA] at h ⊢
          by_cases hB : ¬(svc.receiveBPS = 0 ∧ svc.ignoreClientBandwidth = true)
              ∧ r.authRequest.rx > 0
          · rw [if_pos hB] at h ⊢
            simp at h ⊢
            refine ⟨?_, h.2.1.symm⟩
            rw [h.1]
            simp
          · rw [if_neg hB] at h ⊢
            simp at h ⊢
            refine ⟨?_, h.2.1.symm⟩
            rw [h.1]
            simp
  · simp [ServeHTTP, hc] at h

/-! ## Claims about authentication and congestion-controller selection -/

/-- Claim C1, as frozen, is false on the code: with a registered secret,
`receiveBPS = 200000 > 0`, `ignoreClientBandwidth = true` and a declared
client rate of 0, the request is indeed answered by the masquerade handler,
but the session's `authenticated` flag has already been set to true
(service.go:220-221 run before the rejection check at 223). -/
theorem C1_counterexample :
    (ServeHTTP (⟨0, 200000, true, false, false, 0, [("s1", "U1")]⟩ : ServiceCfg String)
      SessionState.init ⟨"POST", URLHost, URLPath, ⟨"s1", 0⟩⟩).answer = .masquerade
    ∧ ¬((ServeHTTP (⟨0, 200000, true, false, false, 0, [("s1", "U1")]⟩ : ServiceCfg String)
      SessionState.init ⟨"POST", URLHost, URLPath, ⟨"s1", 0⟩⟩).state.authenticated
        = false) := by
  refine ⟨by decide, by decide⟩

/-- Claim C1 (amended): in the rejection case (registered secret,
`receiveBPS > 0`, `ignoreClientBandwidth`, client rate 0) the request is
answered by the masquerade handler, no auth response is sent and no
congestion controller is installed, but the session's `authenticated` flag
is set to true and the identity is bound: the identity binding happens
before the rejection check. -/
theorem C1_reject_answered_by_masquerade {U : Type} (svc : ServiceCfg U)
    (r : Request) (u : U)
    (hm : r.method = "POST") (hh : r.host = URLHost) (hp : r.path = URLPath)
    (hu : svc.userMap.lookup r.authRequest.auth = some u)
    (hr : svc.receiveBPS > 0) (hi : svc.ignoreClientBandwidth = true)
    (hx : r.authRequest.rx = 0) :
    (ServeHTTP svc SessionState.init r).answer = .masquerade
    ∧ (ServeHTTP svc SessionState.init r).installed = none
    ∧ (ServeHTTP svc SessionState.init r).state.authenticated = true
    ∧ (ServeHTTP svc SessionState.init r).state.authUser = some u := by
  rw [ServeHTTP_auth_request svc r u hm hh hp hu, if_pos ⟨hr, hi, hx⟩]
  exact ⟨rfl, rfl, rfl, rfl⟩

/-- Witness for C1 (amended): end-to-end scenario 3 of spec §8, with
`receiveBPS = 200000`, `ignoreClientBandwidth = true`, declared rate 0 and
secret `"s1"` registered to identity `"U1"`. -/
theorem C1_witness :
    (ServeHTTP (⟨0, 200000, true, false, false, 0, [("s1", "U1")]⟩ : ServiceCfg String)
      SessionState.init ⟨"POST", URLHost, URLPath, ⟨"s1", 0⟩⟩).answer = .masquerade
    ∧ (ServeHTTP (⟨0, 200000, true, false, false, 0, [("s1", "U1")]⟩ : ServiceCfg String)
      SessionState.init ⟨"POST", URLHost, URLPath, ⟨"s1", 0⟩⟩).installed = none
    ∧ (ServeHTTP (⟨0, 200000, true, false, false, 0, [("s1", "U1")]⟩ : ServiceCfg String)
      SessionState.init ⟨"POST", URLHost, URLPath, ⟨"s1", 0⟩⟩).state.authenticated = true
    ∧ (ServeHTTP (⟨0, 200000, true, false, false, 0, [("s1", "U1")]⟩ : ServiceCfg String)
      SessionState.init ⟨"POST", URLHost, URLPath, ⟨"s1", 0⟩⟩).state.authUser
        = some "U1" :=
  C1_reject_answered_by_masquerade _ _ "U1" rfl rfl rfl (by decide) (by decide)
    (by decide) rfl

/-- Claim C2: congestion-controller selection refines the spec §4.2 table
(`specSelect`, a pure function of the four inputs): on an authenticating
request, a `fixedRate eff` row installs the Brutal controller at exactly
`eff` with auto-rate false in the response, the `adaptive` row installs BBR
seeded with the configured congestion window with auto-rate true, the
`reject` row answers via the masquerade handler installing nothing; and
whenever `0 < sendBPS < clientDeclaredRate` (in a fixed-rate situation) the
effective rate is exactly the send cap. -/
theorem C2_selection_refines_spec {U : Type} (svc : ServiceCfg U) (r : Request) (u : U)
    (hm : r.method = "POST") (hh : r.host = URLHost) (hp : r.path = URLPath)
    (hu : svc.userMap.lookup r.authRequest.auth = some u) :
    (∀ eff, specSelect svc.receiveBPS svc.ignoreClientBandwidth r.authRequest.rx
        svc.sendBPS = .fixedRate eff →
      (ServeHTTP svc SessionState.init r).installed
          = some (.brutal eff svc.brutalDebug)
      ∧ (ServeHTTP svc SessionState.init r).answer
          = .authOK ⟨!svc.udpDisabled, svc.receiveBPS, false⟩)
    ∧ (specSelect svc.receiveBPS svc.ignoreClientBandwidth r.authRequest.rx
        svc.sendBPS = .adaptive →
      (ServeHTTP svc SessionState.init r).installed = some (.bbr svc.cwnd)
      ∧ (ServeHTTP svc SessionState.init r).answer
          = .authOK ⟨!svc.udpDisabled, svc.receiveBPS, true⟩)
    ∧ (specSelect svc.receiveBPS svc.ignoreClientBandwidth r.authRequest.rx
        svc.sendBPS = .reject →
      (ServeHTTP svc SessionState.init r).answer = .masquerade
      ∧ (ServeHTTP svc SessionState.init r).installed = none)
    ∧ (svc.sendBPS > 0 → r.authRequest.rx > svc.sendBPS →
        ¬(svc.receiveBPS = 0 ∧ svc.ignoreClientBandwidth = true) →
        (ServeHTTP svc SessionState.init r).installed
          = some (.brutal svc.sendBPS svc.brutalDebug)) := by
  rw [ServeHTTP_auth_request svc r u hm hh hp hu]
  by_cases hA : svc.receiveBPS > 0 ∧ svc.ignoreClientBandwidth = true
      ∧ r.authRequest.rx = 0
  · have hsel : specSelect svc.receiveBPS svc.ignoreClientBandwidth
        r.authRequest.rx svc.sendBPS = .reject := by
      unfold specSelect
      rw [if_pos hA]
    rw [if_pos hA]
    refine ⟨?_, ?_, ?_, ?_⟩
    · intro eff heff
      rw [hsel] at heff
      exact SpecSelection.noConfusion heff
    · intro heff
      rw [hsel] at heff
      exact SpecSelection.noConfusion heff
    · intro _
      exact ⟨rfl, rfl⟩
    · intro hs hrx _
      exact absurd hA.2.2 (by omega)
  · by_cases hB : ¬(svc.receiveBPS = 0 ∧ svc.ignoreClientBandwidth = true)
        ∧ r.authRequest.rx > 0
    · have hsel : specSelect svc.receiveBPS svc.ignoreClientBandwidth
          r.authRequest.rx svc.sendBPS = .fixedRate
            (if svc.sendBPS > 0 then min r.authRequest.rx svc.sendBPS
              else r.authRequest.rx) := by
        unfold specSelect
        rw [if_neg hA, if_pos hB]
      rw [if_neg hA, if_pos hB]
      refine ⟨?_, ?_, ?_, ?_⟩
      · intro eff heff
        rw [hsel] at heff
        injection heff with heq
        refine ⟨?_, rfl⟩
        rw [clamp_eq_min, heq]
      · intro heff
        rw [hsel] at heff
        exact SpecSelection.noConfusion heff
      · intro heff
        rw [hsel] at heff
        exact SpecSelection.noConfusion heff
      · intro hs hrx _
        show some _ = _
        rw [if_pos ⟨hs, hrx⟩]
    · have hsel : specSelect svc.receiveBPS svc.ignoreClientBandwidth
          r.authRequest.rx svc.sendBPS = .adaptive := by
        unfold specSelect
        rw [if_neg hA, if_neg hB]
      rw [if_neg hA, if_neg hB]
      refine ⟨?_, ?_, ?_, ?_⟩
      · intro eff heff
        rw [hsel] at heff
        exact SpecSelection.noConfusion heff
      · intro _
        exact ⟨rfl, rfl⟩
      · intro heff
        rw [hsel] at heff
        exact SpecSelection.noConfusion heff
      · intro hs hrx hig
        exact absurd ⟨hig, by omega⟩ hB

/-- Witness for C2: end-to-end scenario 2 of spec §8 — declared rate
1000000, send cap 500000, `receiveBPS = 0`, `ignoreClientBandwidth = false`
→ the spec table gives `fixedRate 500000` and the code installs Brutal at
500000 with auto-rate false. -/
theorem C2_witness :
    (ServeHTTP (⟨500000, 0, false, false, false, 0, [("s1", "U1")]⟩ : ServiceCfg String)
      SessionState.init ⟨"POST", URLHost, URLPath, ⟨"s1", 1000000⟩⟩).installed
        = some (.brutal 500000 false)
    ∧ (ServeHTTP (⟨500000, 0, false, false, false, 0, [("s1", "U1")]⟩ : ServiceCfg String)
      SessionState.init ⟨"POST", URLHost, URLPath, ⟨"s1", 1000000⟩⟩).answer
        = .authOK ⟨true, 0, false⟩ :=
  (C2_selection_refines_spec _ _ "U1" rfl rfl rfl (by decide)).1 500000 (by decide)

/-- Claim C5, as frozen, is false on the code: the re-auth response is not a
cached copy — its `RxAuto` field is recomputed as
`receiveBPS == 0 && ignoreClientBandwidth` (service.go:209). With
`receiveBPS = 5`, `ignoreClientBandwidth = false` and declared rate 0, the
original auth response carries `RxAuto = true` (adaptive branch) but the
re-auth response carries `RxAuto = false`. -/
theorem C5_counterexample :
    (ServeHTTP (⟨0, 5, false, false, false, 0, [("s1", "U1")]⟩ : ServiceCfg String)
      SessionState.init ⟨"POST", URLHost, URLPath, ⟨"s1", 0⟩⟩).answer
        = .authOK ⟨true, 5, true⟩
    ∧ (ServeHTTP (⟨0, 5, false, false, false, 0, [("s1", "U1")]⟩ : ServiceCfg String)
      (ServeHTTP (⟨0, 5, false, false, false, 0, [("s1", "U1")]⟩ : ServiceCfg String)
        SessionState.init ⟨"POST", URLHost, URLPath, ⟨"s1", 0⟩⟩).state
      ⟨"POST", URLHost, URLPath, ⟨"s1", 0⟩⟩).answer
        = .authOK ⟨true, 5, false⟩ := by
  exact ⟨by decide, by decide⟩

/-- Claim C5 (amended): once a connection completed authentication (its
first auth request was answered with an auth-OK response `resp`), a further
auth POST is answered immediately with an auth-OK response whose
`UDPEnabled` and `Rx` fields equal `resp`'s, whose `RxAuto` field is
recomputed as `receiveBPS == 0 && ignoreClientBandwidth` (which can differ
from `resp.rxAuto`), installing no controller and leaving the session state
unchanged. -/
theorem C5_reauth_immediate {U : Type} (svc : ServiceCfg U) (r1 r2 : Request)
    (resp : AuthResponse)
    (h1 : (ServeHTTP svc SessionState.init r1).answer = .authOK resp)
    (hm : r2.method = "POST") (hh : r2.host = URLHost) (hp : r2.path = URLPath) :
    (ServeHTTP svc (ServeHTTP svc SessionState.init r1).state r2).answer
      = .authOK ⟨resp.udpEnabled, resp.rx,
          decide (svc.receiveBPS = 0) && svc.ignoreClientBandwidth⟩
    ∧ (ServeHTTP svc (ServeHTTP svc SessionState.init r1).state r2).installed = none
    ∧ (ServeHTTP svc (ServeHTTP svc SessionState.init r1).state r2).state
      = (ServeHTTP svc SessionState.init r1).state := by
  obtain ⟨hauth, hud, hrx⟩ := authOK_from_init svc r1 resp h1
  rw [ServeHTTP_already_authenticated svc _ r2 hauth hm hh hp]
  refine ⟨?_, rfl, rfl⟩
  rw [hud, hrx]

/-- Witness for C5 (amended): the concrete connection of the C5
counterexample, re-auth answered immediately with `UDPEnabled` and `Rx`
equal to the original's and `RxAuto` recomputed to false. -/
theorem C5_witness :
    (ServeHTTP (⟨0, 5, false, false, false, 0, [("s1", "U1")]⟩ : ServiceCfg String)
      (ServeHTTP (⟨0, 5, false, false, false, 0, [("s1", "U1")]⟩ : ServiceCfg String)
        SessionState.init ⟨"POST", URLHost, URLPath, ⟨"s1", 0⟩⟩).state
      ⟨"POST", URLHost, URLPath, ⟨"s1", 42⟩⟩).answer
        = .authOK ⟨true, 5, decide ((5 : Nat) = 0) && false⟩
    ∧ (ServeHTTP (⟨0, 5, false, false, false, 0, [("s1", "U1")]⟩ : ServiceCfg String)
      (ServeHTTP (⟨0, 5, false, false, false, 0, [("s1", "U1")]⟩ : ServiceCfg String)
        SessionState.init ⟨"POST", URLHost, URLPath, ⟨"s1", 0⟩⟩).state
      ⟨"POST", URLHost, URLPath, ⟨"s1", 42⟩⟩).installed = none
    ∧ (ServeHTTP (⟨0, 5, false, false, false, 0, [("s1", "U1")]⟩ : ServiceCfg String)
      (ServeHTTP (⟨0, 5, false, false, false, 0, [("s1", "U1")]⟩ : ServiceCfg String)
        SessionState.init ⟨"POST", URLHost, URLPath, ⟨"s1", 0⟩⟩).state
      ⟨"POST", URLHost, URLPath, ⟨"s1", 42⟩⟩).state
      = (ServeHTTP (⟨0, 5, false, false, false, 0, [("s1", "U1")]⟩ : ServiceCfg String)
        SessionState.init ⟨"POST", URLHost, URLPath, ⟨"s1", 0⟩⟩).state :=
  C5_reauth_immediate _ _ ⟨"POST", URLHost, URLPath, ⟨"s1", 42⟩⟩ ⟨true, 5, true⟩
    (by decide) rfl rfl rfl

/-! ## Claims about service construction -/

/-- Claim C8, as frozen, is false on the code: `NewService` does not leave
every non-tuning configuration field equal to its option value. With a nil
masquerade handler the service gets the not-found handler
(service.go:102-104); and inside the supplied `quic.Config`,
`EnableDatagrams` is overwritten with `!UDPDisabled` and
`DisablePathManager` is forced to true regardless of their configured
values (service.go:78-80). -/
theorem C8_counterexample :
    ¬(some (NewService "linux"
        ⟨false, 0, 0, false, "", ⟨["x"]⟩,
          some ⟨false, false, true, 5, 1, 1, 1, 1, 1, 1⟩,
          true, 0, none, 0, 0⟩).masqueradeHandler = none)
    ∧ ¬((NewService "linux"
        ⟨false, 0, 0, false, "", ⟨["x"]⟩,
          some ⟨false, false, true, 5, 1, 1, 1, 1, 1, 1⟩,
          true, 0, none, 0, 0⟩).quicConfig.enableDatagrams = true)
    ∧ ¬((NewService "linux"
        ⟨false, 0, 0, false, "", ⟨["x"]⟩,
          some ⟨false, false, true, 5, 1, 1, 1, 1, 1, 1⟩,
          true, 0, none, 0, 0⟩).quicConfig.disablePathManager = false) := by
  exact ⟨by decide, by decide, by decide⟩

/-- Claim C8 (amended): `NewService` fills in the protocol default for each
zero-valued enumerated tuning field (max incoming streams, initial/max
stream receive window, initial/max connection receive window, max idle
timeout, keep-alive period) and leaves each non-zero one at its configured
value; it unconditionally sets `DisablePathManager`, derives
`DisablePathMTUDiscovery` from the platform and `EnableDatagrams` from
`!UDPDisabled`; the masquerade handler defaults to the not-found handler
when nil, the TLS protocol list defaults to HTTP/3 when empty; and every
remaining configuration field equals the corresponding option field. -/
theorem C8_defaults_filled (goos : String) (options : ServiceOptions) :
    (NewService goos options).quicConfig.maxIncomingStreams
      = (if (options.quicConfig.getD QuicConfig.zero).maxIncomingStreams = 0
          then (2 : Int) ^ 60
          else (options.quicConfig.getD QuicConfig.zero).maxIncomingStreams)
    ∧ (NewService goos options).quicConfig.initialStreamReceiveWindow
      = (if (options.quicConfig.getD QuicConfig.zero).initialStreamReceiveWindow = 0
          then DefaultStreamReceiveWindow
          else (options.quicConfig.getD QuicConfig.zero).initialStreamReceiveWindow)
    ∧ (NewService goos options).quicConfig.maxStreamReceiveWindow
      = (if (options.quicConfig.getD QuicConfig.zero).maxStreamReceiveWindow = 0
          then DefaultStreamReceiveWindow
          else (options.quicConfig.getD QuicConfig.zero).maxStreamReceiveWindow)
    ∧ (NewService goos options).quicConfig.initialConnectionReceiveWindow
      = (if (options.quicConfig.getD QuicConfig.zero).initialConnectionReceiveWindow = 0
          then DefaultConnReceiveWindow
          else (options.quicConfig.getD QuicConfig.zero).initialConnectionReceiveWindow)
    ∧ (NewService goos options).quicConfig.maxConnectionReceiveWindow
      = (if (options.quicConfig.getD QuicConfig.zero).maxConnectionReceiveWindow = 0
          then DefaultConnReceiveWindow
          else (options.quicConfig.getD QuicConfig.zero).maxConnectionReceiveWindow)
    ∧ (NewService goos options).quicConfig.maxIdleTimeout
      = (if (options.quicConfig.getD QuicConfig.zero).maxIdleTimeout = 0
          then DefaultMaxIdleTimeout
          else (options.quicConfig.getD QuicConfig.zero).maxIdleTimeout)
    ∧ (NewService goos options).quicConfig.keepAlivePeriod
      = (if (options.quicConfig.getD QuicConfig.zero).keepAlivePeriod = 0
          then DefaultKeepAlivePeriod
          else (options.quicConfig.getD QuicConfig.zero).keepAlivePeriod)
    ∧ (NewService goos options).quicConfig.disablePathManager = true
    ∧ (NewService goos options).quicConfig.enableDatagrams = !options.udpDisabled
    ∧ (NewService goos options).quicConfig.disablePathMTUDiscovery
      = !(goos = "windows" || goos = "linux" || goos = "android" || goos = "darwin")
    ∧ (NewService goos options).masqueradeHandler
      = options.masqueradeHandler.getD notFoundHandler
    ∧ (NewService goos options).tlsConfig
      = (if options.tlsConfig.nextProtos = [] then ⟨[NextProtoH3]⟩
          else options.tlsConfig)
    ∧ (NewService goos options).brutalDebug = options.brutalDebug
    ∧ (NewService goos options).sendBPS = options.sendBPS
    ∧ (NewService goos options).receiveBPS = options.receiveBPS
    ∧ (NewService goos options).ignoreClientBandwidth = options.ignoreClientBandwidth
    ∧ (NewService goos options).salamanderPassword = options.salamanderPassword
    ∧ (NewService goos options).udpDisabled = options.udpDisabled
    ∧ (NewService goos options).udpTimeout = options.udpTimeout
    ∧ (NewService goos options).cwnd = options.cwnd
    ∧ (NewService goos options).udpMTU = options.udpMTU := by
  refine ⟨rfl, rfl, rfl, rfl, rfl, rfl, rfl, rfl, rfl, rfl, rfl, rfl, rfl, rfl,
    rfl, rfl, rfl, rfl, rfl, rfl, rfl⟩

end Hysteria2
